import Mathlib

/-!
Verification of the sparkem-beta viewport/export core.

The embedding below models, over exact rational arithmetic, the viewport
transform management, coordinate mapping, gesture rotate gate, fit-to-region
computation, snapshot reconciliation, import validation and page-region
export of the editor.  The viewport transform is always of the form
`[s, 0, 0, s, tx, ty]` (uniform scale plus translation), as maintained by
every code path of the editor, so it is modelled as a record of the three
numbers `scale`, `tx`, `ty`.

Functions called on the external scene-engine library by the editor
(`zoomToPoint`, `invertTransform`/`transformPoint`, the crop logic of
`toCanvasElement` backing `toDataURL`) are embedded by their library
formulas, which are reproduced in the doc comments of the corresponding
definitions so they can be checked against the library source.
-/

namespace Sparkem

/-- A viewport transform `[scale, 0, 0, scale, tx, ty]` (uniform scale and
translation), the shape every code path of the editor maintains. -/
structure Vpt where
  scale : ℚ
  tx : ℚ
  ty : ℚ
deriving DecidableEq

/-- A 2D point (device or world coordinates). -/
structure Pt where
  x : ℚ
  y : ℚ
deriving DecidableEq

/-- The clamp helper of the editor: `Math.max(min, Math.min(max, v))`. -/
def clamp (v lo hi : ℚ) : ℚ := max lo (min hi v)

/-- Lower zoom bound of the A3 editor variant (`MIN_ZOOM = 0.02`). -/
def MIN_ZOOM : ℚ := 1/50

/-- Upper zoom bound of the A3 editor variant (`MAX_ZOOM = 12`). -/
def MAX_ZOOM : ℚ := 12

/-- Inverse viewport mapping, as used by the drop handler:
`world = transformPoint(p, invertTransform(vpt))`, which for a transform
`[s, 0, 0, s, tx, ty]` is `world = (device - translate) / scale`. -/
def toWorld (p : Pt) (t : Vpt) : Pt :=
  ⟨(p.x - t.tx) / t.scale, (p.y - t.ty) / t.scale⟩

/-- Forward viewport mapping `device = world * scale + translate`
(`transformPoint(w, vpt)` for a transform `[s, 0, 0, s, tx, ty]`). -/
def toDevice (w : Pt) (t : Vpt) : Pt :=
  ⟨w.x * t.scale + t.tx, w.y * t.scale + t.ty⟩

/-- The scene library's `zoomToPoint(point, value)` as invoked by the
editor: it computes `newPoint = transformPoint(point, invertTransform(vpt))`,
sets the scale entries of the transform to `value`, computes
`after = transformPoint(newPoint, vpt)` with the old translation, and then
adds `point - after` to the translation. -/
def zoomToPoint (p : Pt) (value : ℚ) (t : Vpt) : Vpt :=
  let newPoint := toWorld p t
  let afterX := newPoint.x * value + t.tx
  let afterY := newPoint.y * value + t.ty
  ⟨value, t.tx + p.x - afterX, t.ty + p.y - afterY⟩

/-- `handleWheelZoom`: multiplies the current zoom by `0.999 ** deltaY`,
clamps the result to `[MIN_ZOOM, MAX_ZOOM]` and zooms to the pointer
position.  The wheel delta is modelled as an integer, matching the integer
`deltaY` steps of wheel events. -/
def handleWheelZoom (t : Vpt) (p : Pt) (deltaY : ℤ) : Vpt :=
  zoomToPoint p (clamp (t.scale * (999/1000 : ℚ) ^ deltaY) MIN_ZOOM MAX_ZOOM) t

/-- `panBy(dx, dy)`: adds the deltas to the translation entries of the
viewport transform (`vpt[4] += dx; vpt[5] += dy`).  The drag-to-pan mouse
handler, the arrow keys and the toolbar pan buttons all take this path. -/
def panBy (t : Vpt) (dx dy : ℚ) : Vpt :=
  ⟨t.scale, t.tx + dx, t.ty + dy⟩

/-- `zoomTo(z)`: clamps `z` to `[MIN_ZOOM, MAX_ZOOM]` and zooms to the
viewport center `(width/2, height/2)`. -/
def zoomTo (t : Vpt) (vw vh z : ℚ) : Vpt :=
  zoomToPoint ⟨vw / 2, vh / 2⟩ (clamp z MIN_ZOOM MAX_ZOOM) t

/-- `zoomBy(delta)`: `zoomTo(current zoom + delta)`. -/
def zoomBy (t : Vpt) (vw vh delta : ℚ) : Vpt :=
  zoomTo t vw vh (t.scale + delta)

/-- Round-trip of the coordinate mapper: mapping a device point to world
coordinates with the inverse transform and back with the forward transform
returns the original point whenever the scale is nonzero (C3). -/
theorem toDevice_toWorld_roundtrip (t : Vpt) (p : Pt) (h : 0 < t.scale) :
    toDevice (toWorld p t) t = p := by
  have hs : t.scale ≠ 0 := ne_of_gt h
  simp only [toWorld, toDevice]
  cases p with
  | mk px py =>
    congr 1 <;> field_simp

/-- Witness for the round-trip theorem at the transform `[2,0,0,2,7,-3]`
and the device point `(5, 11)`. -/
theorem toDevice_toWorld_roundtrip_witness :
    0 < (Vpt.mk 2 7 (-3)).scale ∧
      toDevice (toWorld ⟨5, 11⟩ ⟨2, 7, -3⟩) ⟨2, 7, -3⟩ = ⟨5, 11⟩ :=
  ⟨by norm_num, toDevice_toWorld_roundtrip ⟨2, 7, -3⟩ ⟨5, 11⟩ (by norm_num)⟩

/-- The lower bound is below the upper bound. -/
theorem min_zoom_le_max_zoom : MIN_ZOOM ≤ MAX_ZOOM := by
  simp only [MIN_ZOOM, MAX_ZOOM]; norm_num

/-- The lower zoom bound is positive. -/
theorem min_zoom_pos : 0 < MIN_ZOOM := by
  simp only [MIN_ZOOM]; norm_num

theorem le_clamp (v lo hi : ℚ) : lo ≤ clamp v lo hi := le_max_left _ _

theorem clamp_le (v lo hi : ℚ) (h : lo ≤ hi) : clamp v lo hi ≤ hi :=
  max_le h (min_le_left _ _)

theorem clamp_eq_lo (v lo hi : ℚ) (hlo : v < lo) (h : lo ≤ hi) :
    clamp v lo hi = lo := by
  have : min hi v = v := min_eq_right (le_of_lt (lt_of_lt_of_le hlo h))
  simp only [clamp, this]
  exact max_eq_left (le_of_lt hlo)

theorem clamp_eq_hi (v lo hi : ℚ) (hhi : hi < v) (h : lo ≤ hi) :
    clamp v lo hi = hi := by
  have : min hi v = hi := min_eq_left (le_of_lt hhi)
  simp only [clamp, this]
  exact max_eq_right h

/-- Zoom-at-point keeps the world point under the zoom point fixed and
recomputes the translation as `p - worldPointUnderCursor * newScale`,
whenever both the old and the new scale are nonzero. -/
theorem zoomToPoint_cursor_fixed (t : Vpt) (p : Pt) (v : ℚ)
    (h : t.scale ≠ 0) (hv : v ≠ 0) :
    toWorld p (zoomToPoint p v t) = toWorld p t ∧
      (zoomToPoint p v t).tx = p.x - (toWorld p t).x * v ∧
      (zoomToPoint p v t).ty = p.y - (toWorld p t).y * v := by
  simp only [zoomToPoint, toWorld]
  refine ⟨?_, by ring, by ring⟩
  congr 1 <;> field_simp <;> ring

/-- Zoom-to-cursor invariance of the wheel handler: the world point under
the pointer before the zoom is still under the pointer afterwards, and the
new translation is `p - worldPointUnderCursor * newScale` (C2). -/
theorem handleWheelZoom_cursor_invariant (t : Vpt) (p : Pt) (d : ℤ)
    (h : 0 < t.scale) :
    toWorld p (handleWheelZoom t p d) = toWorld p t ∧
      (handleWheelZoom t p d).tx =
        p.x - (toWorld p t).x * (handleWheelZoom t p d).scale ∧
      (handleWheelZoom t p d).ty =
        p.y - (toWorld p t).y * (handleWheelZoom t p d).scale := by
  have hs' : (0 : ℚ) < clamp (t.scale * (999/1000 : ℚ) ^ d) MIN_ZOOM MAX_ZOOM :=
    lt_of_lt_of_le min_zoom_pos (le_clamp _ _ _)
  have hmain := zoomToPoint_cursor_fixed t p
    (clamp (t.scale * (999/1000 : ℚ) ^ d) MIN_ZOOM MAX_ZOOM)
    (ne_of_gt h) (ne_of_gt hs')
  simpa only [handleWheelZoom, zoomToPoint] using hmain

/-- Witness for zoom-to-cursor invariance: transform `[1,0,0,1,0,0]`,
pointer `(3, 4)`, wheel delta `0`. -/
theorem handleWheelZoom_cursor_invariant_witness :
    0 < (Vpt.mk 1 0 0).scale ∧
      (toWorld ⟨3, 4⟩ (handleWheelZoom ⟨1, 0, 0⟩ ⟨3, 4⟩ 0) =
          toWorld ⟨3, 4⟩ ⟨1, 0, 0⟩ ∧
        (handleWheelZoom ⟨1, 0, 0⟩ ⟨3, 4⟩ 0).tx =
          3 - (toWorld ⟨3, 4⟩ ⟨1, 0, 0⟩).x *
            (handleWheelZoom ⟨1, 0, 0⟩ ⟨3, 4⟩ 0).scale ∧
        (handleWheelZoom ⟨1, 0, 0⟩ ⟨3, 4⟩ 0).ty =
          4 - (toWorld ⟨3, 4⟩ ⟨1, 0, 0⟩).y *
            (handleWheelZoom ⟨1, 0, 0⟩ ⟨3, 4⟩ 0).scale) :=
  ⟨by norm_num, handleWheelZoom_cursor_invariant ⟨1, 0, 0⟩ ⟨3, 4⟩ 0 (by norm_num)⟩

/-- Page width in pixels: `Math.round((420 / 25.4) * 150)` for an A3 long
edge of 420 mm at 150 DPI. -/
def A3_W_PX : ℚ := ((round ((420 / (254/10)) * 150 : ℚ) : ℤ) : ℚ)

/-- Page height in pixels: `Math.round((297 / 25.4) * 150)` for an A3 short
edge of 297 mm at 150 DPI. -/
def A3_H_PX : ℚ := ((round ((297 / (254/10)) * 150 : ℚ) : ℤ) : ℚ)

/-- The fit computation of `fitToA3Page`, written over its region size,
viewport size, padding and zoom bounds: `cw = width - paddingLeft -
paddingRight` (all four paddings are the same constant), `s =
clamp(min(cw / regionW, ch / regionH), minZ, maxZ)`, and the translation
`dx = paddingLeft + (cw - regionW * s) / 2`, symmetric in y. -/
def fitRegion (regionW regionH vw vh padding minZ maxZ : ℚ) : Vpt :=
  let cw := vw - padding - padding
  let ch := vh - padding - padding
  let s := clamp (min (cw / regionW) (ch / regionH)) minZ maxZ
  ⟨s, padding + (cw - regionW * s) / 2, padding + (ch - regionH * s) / 2⟩

/-- `fitToA3Page`: fits the A3 page region (at world origin) into the
viewport with a padding of 30 on every side, clamped to the zoom bounds. -/
def fitToA3Page (vw vh : ℚ) : Vpt :=
  fitRegion A3_W_PX A3_H_PX vw vh 30 MIN_ZOOM MAX_ZOOM

/-- The fit computation of the `fitToPdf` variant: `cw = width - padding*2`,
`s = clamp(min(cw / pdfW, ch / pdfH), minZ, maxZ)`, and the translation
`dx = (width - pdfW * s) / 2` with no explicit padding term. -/
def fitToPdf (pdfW pdfH vw vh padding minZ maxZ : ℚ) : Vpt :=
  let cw := vw - padding * 2
  let ch := vh - padding * 2
  let s := clamp (min (cw / pdfW) (ch / pdfH)) minZ maxZ
  ⟨s, (vw - pdfW * s) / 2, (vh - pdfH * s) / 2⟩

/-- The A3 page pixel sizes round to 2480 x 1754. -/
theorem a3_page_px_values : A3_W_PX = 2480 ∧ A3_H_PX = 1754 := by
  constructor <;> simp only [A3_W_PX, A3_H_PX] <;> norm_num [round_eq]

/-- The fit operation returns the claimed clamped scale and padded centering
translation, and that translation maps the center of a region at the world
origin to the viewport center; in particular, for the region 2480 x 1754 in
a 1200 x 800 viewport with padding 20 the scale is
`min((1200-40)/2480, (800-40)/1754) = 380/877` (inside the zoom bounds) and
the region center lands on the viewport center `(600, 400)` (C6). -/
theorem fitRegion_spec (regionW regionH vw vh padding minZ maxZ : ℚ) :
    (fitRegion regionW regionH vw vh padding minZ maxZ).scale =
        clamp (min ((vw - 2 * padding) / regionW) ((vh - 2 * padding) / regionH))
          minZ maxZ ∧
      (fitRegion regionW regionH vw vh padding minZ maxZ).tx =
        padding + ((vw - 2 * padding) - regionW *
          (fitRegion regionW regionH vw vh padding minZ maxZ).scale) / 2 ∧
      (fitRegion regionW regionH vw vh padding minZ maxZ).ty =
        padding + ((vh - 2 * padding) - regionH *
          (fitRegion regionW regionH vw vh padding minZ maxZ).scale) / 2 ∧
      toDevice ⟨regionW / 2, regionH / 2⟩
          (fitRegion regionW regionH vw vh padding minZ maxZ) =
        ⟨vw / 2, vh / 2⟩ ∧
      (fitRegion 2480 1754 1200 800 20 MIN_ZOOM MAX_ZOOM).scale = 380/877 ∧
      toDevice ⟨1240, 877⟩ (fitRegion 2480 1754 1200 800 20 MIN_ZOOM MAX_ZOOM) =
        ⟨600, 400⟩ := by
  have harg : (vw - padding - padding) = vw - 2 * padding := by ring
  have harg' : (vh - padding - padding) = vh - 2 * padding := by ring
  refine ⟨?_, ?_, ?_, ?_, ?_, ?_⟩
  · simp only [fitRegion, harg, harg']
  · simp only [fitRegion, harg, harg']
  · simp only [fitRegion, harg, harg']
  · simp only [fitRegion, toDevice]
    congr 1 <;> ring
  · simp only [fitRegion, clamp, MIN_ZOOM, MAX_ZOOM]
    norm_num
  · simp only [fitRegion, toDevice, clamp, MIN_ZOOM, MAX_ZOOM]
    congr 1 <;> norm_num

/-- The two fit implementations agree: the padding-free centering formula
`(vw - w*s)/2` of the PDF variant equals the padded formula
`padding + ((vw - 2*padding) - w*s)/2` of the A3 variant, and both compute
the same clamped scale, for all inputs (C10). -/
theorem fitToPdf_eq_fitRegion (w h vw vh padding minZ maxZ : ℚ) :
    fitToPdf w h vw vh padding minZ maxZ =
      fitRegion w h vw vh padding minZ maxZ := by
  have harg : (vw - padding * 2) = vw - padding - padding := by ring
  have harg' : (vh - padding * 2) = vh - padding - padding := by ring
  simp only [fitToPdf, fitRegion, harg, harg']
  congr 1 <;> ring

/-- The effective render transform of the scene library's
`toCanvasElement(multiplier, cropping)`, which backs `toDataURL` with
cropping options: it renders with `newVp = [zoom * multiplier, 0, 0,
zoom * multiplier, (vp[4] - left) * multiplier, (vp[5] - top) * multiplier]`
where `vp` is the live viewport transform and `zoom` its scale.  The crop
offsets `left`/`top` are therefore subtracted in device coordinates, after
the live viewport transform has been applied. -/
def exportVpt (t : Vpt) (left top m : ℚ) : Vpt :=
  ⟨t.scale * m, (t.tx - left) * m, (t.ty - top) * m⟩

/-- The render transform of `toPageDataUrl`: it passes the page rectangle's
world coordinates (`left = 0`, `top = 0` for the A3 page rect) and
`multiplier: 2` to `toDataURL` of the live canvas. -/
def toPageDataUrlVpt (t : Vpt) : Vpt := exportVpt t 0 0 2

/-- The export is not independent of the live viewport: zooming to scale 2
(via the toolbar zoom, from the identity transform in a 1000 x 700 canvas)
changes the render transform used by `toPageDataUrl`, and the page's
top-left world corner `(0,0)` lands at raster pixel `(0,0)` under the
identity viewport but at `(-1000, -700)` — outside the raster — after the
zoom, so the two exports cannot be byte-identical on any scene that marks
the page (C1 fails on the code). -/
theorem toPageDataUrl_depends_on_viewport :
    toPageDataUrlVpt (zoomTo ⟨1, 0, 0⟩ 1000 700 2) ≠ toPageDataUrlVpt ⟨1, 0, 0⟩ ∧
      toDevice ⟨0, 0⟩ (toPageDataUrlVpt (zoomTo ⟨1, 0, 0⟩ 1000 700 2)) =
        ⟨-1000, -700⟩ ∧
      toDevice ⟨0, 0⟩ (toPageDataUrlVpt ⟨1, 0, 0⟩) = ⟨0, 0⟩ := by
  refine ⟨?_, ?_, ?_⟩ <;>
    simp only [toPageDataUrlVpt, exportVpt, zoomTo, zoomToPoint, toWorld,
      toDevice, clamp, MIN_ZOOM, MAX_ZOOM] <;>
    norm_num

/-- Every zooming operation clamps to `[MIN_ZOOM, MAX_ZOOM]`: the wheel
zoom, `zoomTo`, `zoomBy` and the fit computation all leave the scale inside
the bounds; a request below `MIN_ZOOM` yields exactly `MIN_ZOOM` and a
request above `MAX_ZOOM` yields exactly `MAX_ZOOM`; and a pan never changes
the scale (C4). -/
theorem zoom_bounds_invariant (t : Vpt) (p : Pt) (d : ℤ)
    (vw vh z dx dy zlo zhi : ℚ)
    (hlo : zlo < MIN_ZOOM) (hhi : MAX_ZOOM < zhi) :
    (MIN_ZOOM ≤ (handleWheelZoom t p d).scale ∧
        (handleWheelZoom t p d).scale ≤ MAX_ZOOM) ∧
      (MIN_ZOOM ≤ (zoomTo t vw vh z).scale ∧
        (zoomTo t vw vh z).scale ≤ MAX_ZOOM) ∧
      (MIN_ZOOM ≤ (zoomBy t vw vh z).scale ∧
        (zoomBy t vw vh z).scale ≤ MAX_ZOOM) ∧
      (MIN_ZOOM ≤ (fitToA3Page vw vh).scale ∧
        (fitToA3Page vw vh).scale ≤ MAX_ZOOM) ∧
      (zoomTo t vw vh zlo).scale = MIN_ZOOM ∧
      (zoomTo t vw vh zhi).scale = MAX_ZOOM ∧
      (panBy t dx dy).scale = t.scale := by
  have hmm := min_zoom_le_max_zoom
  refine ⟨⟨?_, ?_⟩, ⟨?_, ?_⟩, ⟨?_, ?_⟩, ⟨?_, ?_⟩, ?_, ?_, rfl⟩
  · exact le_clamp _ _ _
  · exact clamp_le _ _ _ hmm
  · exact le_clamp _ _ _
  · exact clamp_le _ _ _ hmm
  · exact le_clamp _ _ _
  · exact clamp_le _ _ _ hmm
  · exact le_clamp _ _ _
  · exact clamp_le _ _ _ hmm
  · exact clamp_eq_lo _ _ _ hlo hmm
  · exact clamp_eq_hi _ _ _ hhi hmm

/-- Witness for the zoom bounds invariant, at the identity transform, a
1000 x 700 viewport, requested zooms `0.01` (below the bound) and `13`
(above the bound). -/
theorem zoom_bounds_invariant_witness :
    (1/100 : ℚ) < MIN_ZOOM ∧ MAX_ZOOM < (13 : ℚ) ∧
      ((MIN_ZOOM ≤ (handleWheelZoom ⟨1, 0, 0⟩ ⟨0, 0⟩ 3).scale ∧
          (handleWheelZoom ⟨1, 0, 0⟩ ⟨0, 0⟩ 3).scale ≤ MAX_ZOOM) ∧
        (MIN_ZOOM ≤ (zoomTo ⟨1, 0, 0⟩ 1000 700 2).scale ∧
          (zoomTo ⟨1, 0, 0⟩ 1000 700 2).scale ≤ MAX_ZOOM) ∧
        (MIN_ZOOM ≤ (zoomBy ⟨1, 0, 0⟩ 1000 700 2).scale ∧
          (zoomBy ⟨1, 0, 0⟩ 1000 700 2).scale ≤ MAX_ZOOM) ∧
        (MIN_ZOOM ≤ (fitToA3Page 1000 700).scale ∧
          (fitToA3Page 1000 700).scale ≤ MAX_ZOOM) ∧
        (zoomTo ⟨1, 0, 0⟩ 1000 700 (1/100)).scale = MIN_ZOOM ∧
        (zoomTo ⟨1, 0, 0⟩ 1000 700 13).scale = MAX_ZOOM ∧
        (panBy ⟨1, 0, 0⟩ 5 7).scale = (Vpt.mk 1 0 0).scale) :=
  ⟨by simp only [MIN_ZOOM]; norm_num,
   by simp only [MAX_ZOOM]; norm_num,
   zoom_bounds_invariant ⟨1, 0, 0⟩ ⟨0, 0⟩ 3 1000 700 2 5 7 (1/100) 13
     (by simp only [MIN_ZOOM]; norm_num)
     (by simp only [MAX_ZOOM]; norm_num)⟩

/-- Name of the page rectangle object (`PAGE_NAME`). -/
def PAGE_NAME : String := "A3_PAGE"

/-- Name of the rasterized document background object (`PDF_NAME`). -/
def PDF_NAME : String := "PDF_PAGE"

/-- A scene object as the editor sees it: an identity, a scene-engine type
tag (such as "image" or "rect"), an optional name, a rotation angle in
degrees and the interaction flags touched by the editor. -/
structure FObj where
  id : ℕ
  type : String
  name : Option String
  angle : ℚ
  selectable : Bool
  evented : Bool
  hasControls : Bool
  hasBorders : Bool
deriving DecidableEq

/-- The remainder computed by the `%` operator of the host language for a
nonnegative dividend and a positive divisor (the only regime in which the
rotate gate uses it): `a - b * floor(a / b)`. -/
def jsMod (a b : ℚ) : ℚ := a - b * ((⌊a / b⌋ : ℤ) : ℚ)

/-- The click-movement threshold of the rotate gate
(`CLICK_MOVE_THRESHOLD = 5` device pixels). -/
def CLICK_MOVE_THRESHOLD : ℚ := 5

/-- The mutable `clickState` record of the rotate gate. -/
structure ClickState where
  target : Option FObj
  startX : ℚ
  startY : ℚ
  moved : Bool
  shiftKey : Bool
deriving DecidableEq

/-- `onMouseDownRotateGate`: records the pointer-down target, start
position and the shift-modifier state, and resets the moved flag. -/
def onMouseDownRotateGate (target : Option FObj) (e : Pt) (shiftKey : Bool) :
    ClickState :=
  ⟨target, e.x, e.y, false, shiftKey⟩

/-- `onMouseMoveRotateGate`: if a target was recorded and the pointer has
moved more than the threshold away from the down position on either axis,
latches the moved flag. -/
def onMouseMoveRotateGate (cs : ClickState) (e : Pt) : ClickState :=
  match cs.target with
  | none => cs
  | some _ =>
    if CLICK_MOVE_THRESHOLD < |e.x - cs.startX| ∨
        CLICK_MOVE_THRESHOLD < |e.y - cs.startY| then
      { cs with moved := true }
    else cs

/-- `onMouseUpRotateGate`: when the up target is the recorded down target
and the pointer never moved beyond the threshold, and the target is an
image that is not the document background, rotates it by +90 degrees (-90
with shift held at down time), wrapping via `(angle + delta + 360) % 360`.
The result is the rotated target's new angle, or `none` when no rotation
happens. -/
def onMouseUpRotateGate (cs : ClickState) (upTarget : Option FObj) :
    Option ℚ :=
  match cs.target with
  | none => none
  | some dt =>
    if upTarget ≠ some dt then none
    else if cs.moved then none
    else if dt.type = "image" ∧ dt.name ≠ some PDF_NAME then
      some (jsMod (dt.angle + (if cs.shiftKey then -90 else 90) + 360) 360)
    else none

/-- One full click gesture: pointer-down, a list of pointer-moves, then
pointer-up, through the three rotate-gate handlers. -/
def runClickGesture (downTarget : Option FObj) (down : Pt) (shift : Bool)
    (moves : List Pt) (upTarget : Option FObj) : Option ℚ :=
  onMouseUpRotateGate
    (moves.foldl onMouseMoveRotateGate (onMouseDownRotateGate downTarget down shift))
    upTarget

theorem onMouseMoveRotateGate_target (cs : ClickState) (e : Pt) :
    (onMouseMoveRotateGate cs e).target = cs.target ∧
      (onMouseMoveRotateGate cs e).startX = cs.startX ∧
      (onMouseMoveRotateGate cs e).startY = cs.startY ∧
      (onMouseMoveRotateGate cs e).shiftKey = cs.shiftKey := by
  obtain ⟨tg, sx, sy, mv, sk⟩ := cs
  cases tg with
  | none => exact ⟨rfl, rfl, rfl, rfl⟩
  | some d =>
    simp only [onMouseMoveRotateGate]
    split <;> exact ⟨rfl, rfl, rfl, rfl⟩

theorem onMouseMoveRotateGate_moved_latch (cs : ClickState) (e : Pt)
    (h : cs.moved = true) : (onMouseMoveRotateGate cs e).moved = true := by
  obtain ⟨tg, sx, sy, mv, sk⟩ := cs
  cases tg with
  | none => exact h
  | some d =>
    simp only [onMouseMoveRotateGate]
    split
    · rfl
    · exact h

theorem onMouseMoveRotateGate_within (cs : ClickState) (e : Pt)
    (hx : |e.x - cs.startX| ≤ CLICK_MOVE_THRESHOLD)
    (hy : |e.y - cs.startY| ≤ CLICK_MOVE_THRESHOLD) :
    onMouseMoveRotateGate cs e = cs := by
  obtain ⟨tg, sx, sy, mv, sk⟩ := cs
  cases tg with
  | none => rfl
  | some d =>
    simp only [onMouseMoveRotateGate]
    rw [if_neg]
    push_neg
    exact ⟨hx, hy⟩

theorem foldl_moveGate_within (moves : List Pt) (cs : ClickState)
    (h : ∀ m ∈ moves, |m.x - cs.startX| ≤ CLICK_MOVE_THRESHOLD ∧
      |m.y - cs.startY| ≤ CLICK_MOVE_THRESHOLD) :
    moves.foldl onMouseMoveRotateGate cs = cs := by
  induction moves with
  | nil => rfl
  | cons m rest ih =>
    have hm := h m (List.mem_cons_self m rest)
    rw [List.foldl_cons, onMouseMoveRotateGate_within cs m hm.1 hm.2]
    exact ih (fun m' hm' => h m' (List.mem_cons_of_mem m hm'))

theorem foldl_moveGate_latch (moves : List Pt) (cs : ClickState)
    (h : cs.moved = true) :
    (moves.foldl onMouseMoveRotateGate cs).moved = true := by
  induction moves generalizing cs with
  | nil => exact h
  | cons m rest ih =>
    rw [List.foldl_cons]
    exact ih _ (onMouseMoveRotateGate_moved_latch cs m h)

theorem onMouseMoveRotateGate_beyond (cs : ClickState) (e : Pt) (dt : FObj)
    (htg : cs.target = some dt)
    (hb : CLICK_MOVE_THRESHOLD < |e.x - cs.startX| ∨
      CLICK_MOVE_THRESHOLD < |e.y - cs.startY|) :
    (onMouseMoveRotateGate cs e).moved = true := by
  obtain ⟨tg, sx, sy, mv, sk⟩ := cs
  cases tg with
  | none => exact absurd htg (by simp)
  | some d =>
    simp only [onMouseMoveRotateGate]
    rw [if_pos hb]

theorem foldl_moveGate_beyond (moves : List Pt) (cs : ClickState) (dt : FObj)
    (htg : cs.target = some dt)
    (h : ∃ m ∈ moves, CLICK_MOVE_THRESHOLD < |m.x - cs.startX| ∨
      CLICK_MOVE_THRESHOLD < |m.y - cs.startY|) :
    (moves.foldl onMouseMoveRotateGate cs).moved = true := by
  induction moves generalizing cs with
  | nil => exact absurd h (by simp)
  | cons m rest ih =>
    rw [List.foldl_cons]
    rcases h with ⟨m', hm', hbeyond⟩
    rcases List.mem_cons.mp hm' with heq | htail
    · subst heq
      exact foldl_moveGate_latch rest _
        (onMouseMoveRotateGate_beyond cs m' dt htg hbeyond)
    · have hpres := onMouseMoveRotateGate_target cs m
      by_cases hmoved : (onMouseMoveRotateGate cs m).moved = true
      · exact foldl_moveGate_latch rest _ hmoved
      · refine ih (onMouseMoveRotateGate cs m) ?_ ?_
        · rw [hpres.1, htg]
        · exact ⟨m', htail, by rw [hpres.2.1, hpres.2.2.1]; exact hbeyond⟩

theorem jsMod_nonneg (a b : ℚ) (hb : 0 < b) : 0 ≤ jsMod a b := by
  have h := Int.fract_nonneg (a / b)
  have : jsMod a b = b * Int.fract (a / b) := by
    simp only [jsMod, Int.fract]
    field_simp
  rw [this]
  positivity

theorem jsMod_lt (a b : ℚ) (hb : 0 < b) : jsMod a b < b := by
  have h := Int.fract_lt_one (a / b)
  have heq : jsMod a b = b * Int.fract (a / b) := by
    simp only [jsMod, Int.fract]
    field_simp
  rw [heq]
  calc b * Int.fract (a / b) < b * 1 := by
        exact (mul_lt_mul_left hb).mpr h
    _ = b := mul_one b

/-- Gesture disambiguation of the rotate gate: a pointer-down on a
rotatable image followed by pointer-up on the same object with every move
within the 5-pixel threshold rotates it to its old angle plus 90 degrees
(minus 90 with shift held at down time) normalized into `[0, 360)`; and a
gesture with any move beyond the threshold never rotates, whatever its
down and up targets (C5). -/
theorem rotate_gate_spec (t : FObj) (down : Pt) (shift : Bool)
    (moves : List Pt) (himg : t.type = "image")
    (hname : t.name ≠ some PDF_NAME) (_hang : 0 ≤ t.angle) :
    ((∀ m ∈ moves, |m.x - down.x| ≤ CLICK_MOVE_THRESHOLD ∧
        |m.y - down.y| ≤ CLICK_MOVE_THRESHOLD) →
      ∃ a, runClickGesture (some t) down shift moves (some t) = some a ∧
        0 ≤ a ∧ a < 360 ∧
        ∃ k : ℤ, a = t.angle + (if shift then -90 else 90) + 360 * k) ∧
    (∀ (dt ut : Option FObj),
      (∃ m ∈ moves, CLICK_MOVE_THRESHOLD < |m.x - down.x| ∨
        CLICK_MOVE_THRESHOLD < |m.y - down.y|) →
      runClickGesture dt down shift moves ut = none) := by
  constructor
  · intro hwithin
    have hfold : moves.foldl onMouseMoveRotateGate
        (onMouseDownRotateGate (some t) down shift) =
        onMouseDownRotateGate (some t) down shift :=
      foldl_moveGate_within moves _ (by
        simpa only [onMouseDownRotateGate] using hwithin)
    refine ⟨jsMod (t.angle + (if shift then -90 else 90) + 360) 360,
      ?_, ?_, ?_, ?_⟩
    · simp only [runClickGesture]
      rw [hfold]
      simp only [onMouseUpRotateGate, onMouseDownRotateGate]
      simp [himg, hname]
    · exact jsMod_nonneg _ _ (by norm_num)
    · exact jsMod_lt _ _ (by norm_num)
    · refine ⟨1 - ⌊(t.angle + (if shift then -90 else 90) + 360) / 360⌋, ?_⟩
      simp only [jsMod]
      push_cast
      ring
  · intro dtO utO hbeyond
    cases dtO with
    | none =>
      simp only [runClickGesture, onMouseUpRotateGate]
      have : ∀ ms : List Pt, ∀ cs : ClickState, cs.target = none →
          (ms.foldl onMouseMoveRotateGate cs).target = none := by
        intro ms
        induction ms with
        | nil => intro cs h; exact h
        | cons m rest ih =>
          intro cs h
          rw [List.foldl_cons]
          exact ih _ (by rw [(onMouseMoveRotateGate_target cs m).1, h])
      rw [this moves _ rfl]
    | some dt =>
      have hmoved : (moves.foldl onMouseMoveRotateGate
          (onMouseDownRotateGate (some dt) down shift)).moved = true :=
        foldl_moveGate_beyond moves _ dt rfl (by
          simpa only [onMouseDownRotateGate] using hbeyond)
      have htarget : (moves.foldl onMouseMoveRotateGate
          (onMouseDownRotateGate (some dt) down shift)).target = some dt := by
        have hgen : ∀ ms : List Pt, ∀ cs : ClickState,
            (ms.foldl onMouseMoveRotateGate cs).target = cs.target := by
          intro ms
          induction ms with
          | nil => intro cs; rfl
          | cons m rest ih =>
            intro cs
            rw [List.foldl_cons, ih, (onMouseMoveRotateGate_target cs m).1]
        rw [hgen]
        rfl
      simp only [runClickGesture, onMouseUpRotateGate, htarget, hmoved]
      split <;> rfl

/-- Witness for the rotate gate: an unrotated icon image, a click at the
origin with a single in-threshold move to `(3, 2)` rotates it to 90; a
gesture with a move to `(9, 0)` (beyond the threshold) does not rotate. -/
theorem rotate_gate_spec_witness :
    ((Vpt.mk 1 0 0).scale = 1 ∧
      (∃ a, runClickGesture
          (some ⟨7, "image", none, 45, true, true, false, false⟩)
          ⟨0, 0⟩ false [⟨3, 2⟩]
          (some ⟨7, "image", none, 45, true, true, false, false⟩) = some a ∧
        0 ≤ a ∧ a < 360 ∧
        ∃ k : ℤ, a = 45 + 90 + 360 * k)) ∧
    runClickGesture (some ⟨7, "image", none, 45, true, true, false, false⟩)
        ⟨0, 0⟩ false [⟨9, 0⟩]
        (some ⟨7, "image", none, 45, true, true, false, false⟩) = none := by
  have h := rotate_gate_spec ⟨7, "image", none, 45, true, true, false, false⟩
    ⟨0, 0⟩ false [⟨3, 2⟩] rfl (by simp) (by norm_num)
  have h2 := rotate_gate_spec ⟨7, "image", none, 45, true, true, false, false⟩
    ⟨0, 0⟩ false [⟨9, 0⟩] rfl (by simp) (by norm_num)
  refine ⟨⟨rfl, ?_⟩, ?_⟩
  · have := h.1 (by
      intro m hm
      simp only [List.mem_singleton] at hm
      subst hm
      simp only [CLICK_MOVE_THRESHOLD]
      norm_num)
    simpa using this
  · exact h2.2 _ _ ⟨⟨9, 0⟩, by simp, Or.inl (by
      simp only [CLICK_MOVE_THRESHOLD]; norm_num)⟩

/-- The reconciliation applied to each restored object by
`handleLoadFromLocal` after deserialization: first make the object
selectable and evented (and strip controls and borders), then force-lock it
again when its name is the page rectangle's, and likewise when it is the
document background's. -/
def reconcileObj (o : FObj) : FObj :=
  let o1 := { o with
    selectable := true, evented := true, hasControls := false,
    hasBorders := false }
  let o2 := if o1.name = some PAGE_NAME then
    { o1 with selectable := false, evented := false } else o1
  if o2.name = some PDF_NAME then
    { o2 with selectable := false, evented := false } else o2

/-- `handleLoadFromLocal`: the scene is cleared, the snapshot's objects are
deserialized, and the reconciliation pass runs over every restored object. -/
def handleLoadFromLocal (snapshot : List FObj) : List FObj :=
  snapshot.map reconcileObj

theorem reconcileObj_cases (o : FObj) :
    (reconcileObj o).name = o.name ∧
    ((o.name = some PAGE_NAME ∨ o.name = some PDF_NAME) →
      (reconcileObj o).selectable = false ∧ (reconcileObj o).evented = false) ∧
    (o.name ≠ some PAGE_NAME → o.name ≠ some PDF_NAME →
      (reconcileObj o).selectable = true ∧ (reconcileObj o).evented = true) := by
  obtain ⟨i, ty, nm, ang, sel, ev, hc, hb⟩ := o
  by_cases h1 : nm = some PAGE_NAME <;> by_cases h2 : nm = some PDF_NAME <;>
    simp_all [reconcileObj, PAGE_NAME, PDF_NAME]

/-- Snapshot reconciliation: after a restore, every object named like the
page rectangle or the document background is locked (not selectable, not
evented) regardless of the serialized flags, and every other restored
object is selectable and evented (C7). -/
theorem restore_reconciliation (snapshot : List FObj) (o : FObj)
    (ho : o ∈ handleLoadFromLocal snapshot) :
    ((o.name = some PAGE_NAME ∨ o.name = some PDF_NAME) →
      o.selectable = false ∧ o.evented = false) ∧
    ((o.name ≠ some PAGE_NAME ∧ o.name ≠ some PDF_NAME) →
      o.selectable = true ∧ o.evented = true) := by
  simp only [handleLoadFromLocal, List.mem_map] at ho
  obtain ⟨src, _, rfl⟩ := ho
  have h := reconcileObj_cases src
  constructor
  · intro hlock
    rw [h.1] at hlock
    exact h.2.1 hlock
  · intro hfree
    rw [h.1] at hfree
    exact h.2.2 hfree.1 hfree.2

/-- Witness for snapshot reconciliation: a snapshot whose page rectangle
was serialized as selectable and evented, plus an ordinary icon; the
restored page rectangle is locked and the icon is free. -/
theorem restore_reconciliation_witness :
    (reconcileObj ⟨0, "rect", some "A3_PAGE", 0, true, true, true, true⟩ ∈
        handleLoadFromLocal
          [⟨0, "rect", some "A3_PAGE", 0, true, true, true, true⟩,
           ⟨1, "image", none, 90, false, false, false, false⟩] ∧
      ((reconcileObj ⟨0, "rect", some "A3_PAGE", 0, true, true, true, true⟩).name
            = some PAGE_NAME ∨
        (reconcileObj ⟨0, "rect", some "A3_PAGE", 0, true, true, true, true⟩).name
            = some PDF_NAME) ∧
      (reconcileObj ⟨0, "rect", some "A3_PAGE", 0, true, true, true, true⟩).selectable
          = false ∧
      (reconcileObj ⟨0, "rect", some "A3_PAGE", 0, true, true, true, true⟩).evented
          = false) ∧
    (reconcileObj ⟨1, "image", none, 90, false, false, false, false⟩).selectable
        = true ∧
    (reconcileObj ⟨1, "image", none, 90, false, false, false, false⟩).evented
        = true := by
  have hmem : reconcileObj ⟨0, "rect", some "A3_PAGE", 0, true, true, true, true⟩ ∈
      handleLoadFromLocal
        [⟨0, "rect", some "A3_PAGE", 0, true, true, true, true⟩,
         ⟨1, "image", none, 90, false, false, false, false⟩] := by
    simp [handleLoadFromLocal]
  have hmem2 : reconcileObj ⟨1, "image", none, 90, false, false, false, false⟩ ∈
      handleLoadFromLocal
        [⟨0, "rect", some "A3_PAGE", 0, true, true, true, true⟩,
         ⟨1, "image", none, 90, false, false, false, false⟩] := by
    simp [handleLoadFromLocal]
  have h1 := (restore_reconciliation _ _ hmem).1 (Or.inl (by
    simp [reconcileObj, PAGE_NAME, PDF_NAME]))
  have h2 := (restore_reconciliation _ _ hmem2).2 (by
    simp [reconcileObj, PAGE_NAME, PDF_NAME])
  exact ⟨⟨hmem, Or.inl (by simp [reconcileObj, PAGE_NAME, PDF_NAME]),
    h1.1, h1.2⟩, h2.1, h2.2⟩

/-- The scene state relevant to the delete handler: the ordered object list
and the currently active (selected) object. -/
structure SceneState where
  objects : List FObj
  active : Option FObj
deriving DecidableEq

/-- The Delete/Backspace branch of `onKeyDown`: when an active object
exists and its name is neither the page rectangle's nor the document
background's, the object is removed from the scene and the selection is
discarded; otherwise nothing happens. -/
def onKeyDownDelete (st : SceneState) : SceneState :=
  match st.active with
  | none => st
  | some a =>
    if a.name ≠ some PAGE_NAME ∧ a.name ≠ some PDF_NAME then
      ⟨st.objects.erase a, none⟩
    else st

/-- Deletion guard: when the selection is the page rectangle or the
document background, Delete/Backspace leaves the scene untouched; when the
selection is any other object present in a duplicate-free scene, exactly
that object is removed — the count drops by one, the deleted object is
gone, and every other object is retained (C8). -/
theorem delete_guard (st : SceneState) (a : FObj) (ha : st.active = some a) :
    ((a.name = some PAGE_NAME ∨ a.name = some PDF_NAME) →
      onKeyDownDelete st = st) ∧
    (a.name ≠ some PAGE_NAME → a.name ≠ some PDF_NAME → a ∈ st.objects →
      st.objects.Nodup →
      (onKeyDownDelete st).objects = st.objects.erase a ∧
        (onKeyDownDelete st).objects.length + 1 = st.objects.length ∧
        a ∉ (onKeyDownDelete st).objects ∧
        ∀ b ∈ st.objects, b ≠ a → b ∈ (onKeyDownDelete st).objects) := by
  constructor
  · intro hlock
    simp only [onKeyDownDelete, ha]
    rw [if_neg]
    rcases hlock with h | h <;> simp [h]
  · intro h1 h2 hmem hnd
    have hdel : onKeyDownDelete st = ⟨st.objects.erase a, none⟩ := by
      simp only [onKeyDownDelete, ha]
      rw [if_pos ⟨h1, h2⟩]
    refine ⟨by rw [hdel], ?_, ?_, ?_⟩
    · rw [hdel]
      exact List.length_erase_add_one hmem
    · rw [hdel]
      exact hnd.not_mem_erase
    · intro b hb hne
      rw [hdel]
      exact (List.mem_erase_of_ne hne).mpr hb

/-- Witness for the deletion guard: a scene holding the page rectangle and
one icon.  Selecting the page rectangle makes Delete a no-op; selecting the
icon removes exactly the icon. -/
theorem delete_guard_witness :
    onKeyDownDelete
        ⟨[⟨0, "rect", some "A3_PAGE", 0, false, false, false, false⟩,
          ⟨1, "image", none, 0, true, true, false, false⟩],
         some ⟨0, "rect", some "A3_PAGE", 0, false, false, false, false⟩⟩ =
      ⟨[⟨0, "rect", some "A3_PAGE", 0, false, false, false, false⟩,
        ⟨1, "image", none, 0, true, true, false, false⟩],
       some ⟨0, "rect", some "A3_PAGE", 0, false, false, false, false⟩⟩ ∧
    (onKeyDownDelete
        ⟨[⟨0, "rect", some "A3_PAGE", 0, false, false, false, false⟩,
          ⟨1, "image", none, 0, true, true, false, false⟩],
         some ⟨1, "image", none, 0, true, true, false, false⟩⟩).objects =
      [⟨0, "rect", some "A3_PAGE", 0, false, false, false, false⟩] := by
  constructor
  · exact (delete_guard _ _ rfl).1 (Or.inl rfl)
  · have h := (delete_guard
      ⟨[⟨0, "rect", some "A3_PAGE", 0, false, false, false, false⟩,
        ⟨1, "image", none, 0, true, true, false, false⟩],
       some ⟨1, "image", none, 0, true, true, false, false⟩⟩
      ⟨1, "image", none, 0, true, true, false, false⟩ rfl).2
      (by simp) (by simp) (by simp) (by simp)
    rw [h.1]
    rfl

/-- A JSON value as produced by the host parser. -/
inductive Json where
  | null
  | bool (b : Bool)
  | num (q : ℚ)
  | str (s : String)
  | arr (xs : List Json)
  | obj (fields : List (String × Json))

/-- Truthiness of a parsed value under the host language's boolean
coercion: null, false, zero and the empty string are falsy; arrays and
objects are always truthy. -/
def Json.truthy : Json → Bool
  | .null => false
  | .bool b => b
  | .num q => decide (q ≠ 0)
  | .str s => decide (s ≠ "")
  | .arr _ => true
  | .obj _ => true

/-- Property access on a parsed value: defined (first binding) only on
objects, missing on every other value. -/
def Json.getField : Json → String → Option Json
  | .obj fields, k => (fields.find? (fun p => p.1 == k)).map (fun p => p.2)
  | _, _ => none

/-- The `parsed.version !== 1` guard, negated: strict equality with the
number 1 holds only when the version field exists and is the number 1. -/
def versionIsOne (j : Json) : Bool :=
  match j.getField "version" with
  | some (.num q) => decide (q = 1)
  | _ => false

/-- The `!parsed.fabricJson` guard, negated: the scene payload field
exists and is truthy. -/
def hasFabricJson (j : Json) : Bool :=
  match j.getField "fabricJson" with
  | some v => v.truthy
  | none => false

/-- The editor state touched by an import: the saved-documents list and
the canvas scene. -/
structure EditorState where
  docs : List Json
  scene : List FObj

/-- `handleImportJsonFile`: an unparseable file (the catch path) alerts
and returns; a parsed value that is falsy, whose version is not strictly
the number 1, or that lacks a truthy scene payload alerts and returns; an
accepted document is prepended to the saved list and loaded onto the
canvas through the restore path.  The deserialization of the scene payload
performed by the scene library is a parameter.  The returned flag records
whether an alert was surfaced. -/
def handleImportJsonFile (deser : Json → List FObj) (input : Option Json)
    (st : EditorState) : EditorState × Bool :=
  match input with
  | none => (st, true)
  | some parsed =>
    if !parsed.truthy || !versionIsOne parsed || !hasFabricJson parsed then
      (st, true)
    else
      (⟨parsed :: st.docs,
        handleLoadFromLocal (deser ((parsed.getField "fabricJson").getD .null))⟩,
       false)

theorem versionIsOne_truthy (j : Json) (h : versionIsOne j = true) :
    j.truthy = true := by
  cases j <;> simp_all [versionIsOne, Json.getField, Json.truthy]

/-- Import validation: an unparseable file, a falsy parse result, a
version other than the integer 1, or a missing scene payload is rejected
with a surfaced message and mutates neither the saved-documents list nor
the scene; a parsed document whose version is strictly 1 and whose scene
payload is present is accepted, prepended to the saved list, with no
alert (C9). -/
theorem import_version_guard (deser : Json → List FObj) (st : EditorState) :
    handleImportJsonFile deser none st = (st, true) ∧
    (∀ p : Json,
      p.truthy = false ∨ versionIsOne p = false ∨ hasFabricJson p = false →
      handleImportJsonFile deser (some p) st = (st, true)) ∧
    (∀ p : Json, versionIsOne p = true → hasFabricJson p = true →
      (handleImportJsonFile deser (some p) st).1.docs = p :: st.docs ∧
        (handleImportJsonFile deser (some p) st).2 = false) := by
  refine ⟨rfl, ?_, ?_⟩
  · intro p hp
    simp only [handleImportJsonFile]
    rw [if_pos]
    rcases hp with h | h | h <;> simp [h]
  · intro p hv hf
    have ht := versionIsOne_truthy p hv
    simp only [handleImportJsonFile]
    rw [if_neg]
    · exact ⟨rfl, rfl⟩
    · simp [ht, hv, hf]

/-- Witness for the import guard: a document with version 2 is rejected
without touching the state; a document with version 1 and a scene payload
is accepted and prepended. -/
theorem import_version_guard_witness :
    handleImportJsonFile (fun _ => []) (some (Json.obj [("version", Json.num 2),
        ("fabricJson", Json.obj [])])) ⟨[], []⟩ = (⟨[], []⟩, true) ∧
    (handleImportJsonFile (fun _ => []) (some (Json.obj [("version", Json.num 1),
        ("fabricJson", Json.obj [])])) ⟨[], []⟩).1.docs =
      [Json.obj [("version", Json.num 1), ("fabricJson", Json.obj [])]] ∧
    (handleImportJsonFile (fun _ => []) (some (Json.obj [("version", Json.num 1),
        ("fabricJson", Json.obj [])])) ⟨[], []⟩).2 = false := by
  have hguard := import_version_guard (fun _ => ([] : List FObj)) ⟨[], []⟩
  refine ⟨?_, ?_, ?_⟩
  · exact hguard.2.1 _ (Or.inr (Or.inl (by
      simp [versionIsOne, Json.getField])))
  · exact (hguard.2.2 _ (by simp [versionIsOne, Json.getField])
      (by simp [hasFabricJson, Json.getField, Json.truthy])).1
  · exact (hguard.2.2 _ (by simp [versionIsOne, Json.getField])
      (by simp [hasFabricJson, Json.getField, Json.truthy])).2

end Sparkem
